import Mathlib

set_option maxRecDepth 8000

/- Shallow embedding of src/server.js (CSRank Bridge server): the MatchZy
webhook ingestion pipeline (`processMatchEnd`, `processPlayerStats`) and the
per-player aggregation engine (`updatePlayerAggregatedStats`).

Modelling conventions:
- JavaScript numeric stat values are modelled as `Nat`; an absent object
  field is `none`.
- The JavaScript idiom `a || b` on numbers takes the first truthy (nonzero)
  operand; `jsOr` / `jsOrStr` reproduce this (0 and "" are falsy).
- `Math.round` and `toFixed(n)` round an exact rational half-up (toward the
  larger candidate); the embedding stores such results as integers in units
  of 10^-n (tenths / hundredths), computed by `roundHalfUpRat`.
- Firestore collections are association lists keyed by document id; `set`
  replaces the whole document at a key, `update` fails when the key is
  absent (NOT_FOUND), matching Firestore semantics used by the source.
- Fallible firestore calls are modelled in `Except`; the environment
  `DbEnv` says which external calls succeed on a given run.  A thrown
  error carries the store as of the throw. -/

/-- Nested `stats` sub-object of a webhook player entry (all fields optional). -/
structure RawStats where
  kills : Option Nat := none
  deaths : Option Nat := none
  assists : Option Nat := none
  adr : Option Nat := none
  kast : Option Nat := none
  rating : Option Nat := none
  headshot_kills : Option Nat := none
  mvps : Option Nat := none
  utility_damage : Option Nat := none
  enemies_flashed : Option Nat := none
  flash_assists : Option Nat := none
  bomb_plants : Option Nat := none
  bomb_defuses : Option Nat := none
  first_kills : Option Nat := none
  first_deaths : Option Nat := none
  clutches_won : Option Nat := none
  damage : Option Nat := none
deriving DecidableEq

/-- One player entry of a webhook team: identity keys, display name, inline
stat fields and the optional nested `stats` object. -/
structure RawPlayer where
  steamid : Option String := none
  steam_id : Option String := none
  name : Option String := none
  kills : Option Nat := none
  deaths : Option Nat := none
  assists : Option Nat := none
  adr : Option Nat := none
  kast : Option Nat := none
  rating : Option Nat := none
  headshot_kills : Option Nat := none
  mvps : Option Nat := none
  utility_damage : Option Nat := none
  enemies_flashed : Option Nat := none
  flash_assists : Option Nat := none
  bomb_plants : Option Nat := none
  bomb_defuses : Option Nat := none
  first_kills : Option Nat := none
  first_deaths : Option Nat := none
  clutches_won : Option Nat := none
  damage : Option Nat := none
  stats : Option RawStats := none
deriving DecidableEq

/-- One team object of a webhook payload. -/
structure RawTeam where
  name : Option String := none
  score : Option Nat := none
  series_score : Option Nat := none
  players : Option (List RawPlayer) := none
deriving DecidableEq

/-- Optional `params` wrapper some upstream payloads nest team data under. -/
structure ParamsObj where
  team1 : Option RawTeam := none
  team2 : Option RawTeam := none
deriving DecidableEq

/-- A parsed webhook request body (`req.body`).  `event` is optional: a JSON
body without an `event` key reaches the switch with `undefined`. -/
structure Payload where
  event : Option String := none
  matchid : Option String := none
  map_name : Option String := none
  map : Option String := none
  team1 : Option RawTeam := none
  team2 : Option RawTeam := none
  params : Option ParamsObj := none
deriving DecidableEq

/-- JavaScript `a || b` for numeric `a`: the first operand wins unless it is
absent or 0 (falsy). -/
def jsOr (a : Option Nat) (b : Nat) : Nat :=
  match a with
  | some v => if v = 0 then b else v
  | none => b

/-- JavaScript `a || b` for string `a`: the first operand wins unless it is
absent or the empty string (falsy). -/
def jsOrStr (a : Option String) (b : String) : String :=
  match a with
  | some s => if s = "" then b else s
  | none => b

/-- Keep a string only when it is truthy (present and nonempty). -/
def truthyStr : Option String → Option String
  | some s => if s = "" then none else some s
  | none => none

/-- Round the rational `num / den` to the nearest integer, half up
(JavaScript `Math.round`; also the digit-rounding done by `toFixed` after
rescaling). -/
def roundHalfUpRat (num den : Nat) : Nat :=
  (2 * num + den) / (2 * den)

/-- Stat-field resolution of `processPlayerStats`:
`player.field || player.stats?.field || 0` — the inline value if nonzero,
else the nested value if nonzero, else 0. -/
def resolveStat (inl nested : Option Nat) : Nat :=
  jsOr inl (jsOr nested 0)

/-- Modelled from the spec: the field resolution rule as §4.3 words it for
claim C4 — take the inline key when it is *present* (whatever its value),
else the nested key when present, else default 0.  This is the sentence
"resolved by trying the inline key, then the nested key, then defaulting
to 0"; compared against the source's `resolveStat` above. -/
def resolveStatSpec (inl nested : Option Nat) : Nat :=
  match inl with
  | some v => v
  | none =>
    match nested with
    | some v => v
    | none => 0

/-- `player.steamid || player.steam_id`, then the `if (!steamId) return`
falsy check: `none` means the player is skipped. -/
def steamIdOf (p : RawPlayer) : Option String :=
  match truthyStr p.steamid with
  | some s => some s
  | none => truthyStr p.steam_id

/-- `data.team1 || data.params?.team1 || {}` (objects are truthy when present). -/
def resolveTeam (top fromParams : Option RawTeam) : RawTeam :=
  match top with
  | some t => t
  | none =>
    match fromParams with
    | some t => t
    | none => {}

/-- `data.matchid || ("match_" + Date.now())`; `now` stands for the epoch clock. -/
def resolveMatchId (now : Nat) (data : Payload) : String :=
  jsOrStr data.matchid ("match_" ++ toString now)

/-- Canonical match record written to the `matches` collection. -/
structure MatchData where
  matchzyId : String
  map : String
  team1Name : String
  team2Name : String
  scoreTeam1 : Nat
  scoreTeam2 : Nat
  isDraw : Bool
  winner : Nat
  date : Nat
  createdAt : Nat
  rawData : Payload
deriving DecidableEq

/-- The `matchData` object built by `processMatchEnd` (field timestamps
`date`/`createdAt` are the server clock `now`). -/
def mkMatchData (now : Nat) (data : Payload) : MatchData :=
  let team1 := resolveTeam data.team1 (data.params.bind ParamsObj.team1)
  let team2 := resolveTeam data.team2 (data.params.bind ParamsObj.team2)
  let scoreTeam1 := jsOr team1.score (jsOr team1.series_score 0)
  let scoreTeam2 := jsOr team2.score (jsOr team2.series_score 0)
  { matchzyId := resolveMatchId now data
    map := jsOrStr data.map_name (jsOrStr data.map "unknown")
    team1Name := jsOrStr team1.name "Team 1"
    team2Name := jsOrStr team2.name "Team 2"
    scoreTeam1 := scoreTeam1
    scoreTeam2 := scoreTeam2
    isDraw := decide (scoreTeam1 = scoreTeam2)
    winner := if scoreTeam1 > scoreTeam2 then 1 else if scoreTeam2 > scoreTeam1 then 2 else 0
    date := now
    createdAt := now
    rawData := data }

/-- The flattened player list of `processMatchEnd`: team1's players tagged
with team index 1, then team2's tagged 2 (`{ ...p, team: n }`). -/
def allPlayers (data : Payload) : List (RawPlayer × Nat) :=
  let team1 := resolveTeam data.team1 (data.params.bind ParamsObj.team1)
  let team2 := resolveTeam data.team2 (data.params.bind ParamsObj.team2)
  ((team1.players.getD []).map (fun p => (p, 1))) ++
    ((team2.players.getD []).map (fun p => (p, 2)))

/-- `calculateHSPercent(player)`: re-resolves kills and headshot kills from
the player object, returns 0 for 0 kills, else `Math.round(hs/kills*100)`. -/
def calculateHSPercent (p : RawPlayer) : Nat :=
  let kills := resolveStat p.kills (p.stats.bind RawStats.kills)
  let hsKills := resolveStat p.headshot_kills (p.stats.bind RawStats.headshot_kills)
  if kills = 0 then 0 else roundHalfUpRat (hsKills * 100) kills

/-- Canonical per-player stat record written to the `matchStats` collection.
Field names follow the source (`oderId`/`odertId`/`oderne` are the source's
own identifiers for the player id and display name).  `isWinner` is
`Option Bool` because the aggregation engine distinguishes documents whose
`isWinner` is neither `true` nor `false`; the pipeline itself always writes
a boolean (`some`). -/
structure PlayerStat where
  matchId : String
  oderId : String
  odertId : String
  oderne : String
  team : Nat
  teamName : String
  isWinner : Option Bool
  kills : Nat
  deaths : Nat
  assists : Nat
  adr : Nat
  kast : Nat
  rating : Nat
  headshots : Nat
  headshotPercent : Nat
  mvps : Nat
  utilityDamage : Nat
  enemiesFlashed : Nat
  flashAssists : Nat
  plants : Nat
  defuses : Nat
  firstKills : Nat
  firstDeaths : Nat
  clutchesWon : Nat
  damage : Nat
  map : String
  date : Nat
deriving DecidableEq

/-- The `stats` object built by `processPlayerStats` for a player entry that
resolved to identity `sid`, tagged with team index `team`. -/
def mkStat (now : Nat) (matchId : String) (p : RawPlayer) (team : Nat)
    (md : MatchData) (sid : String) : PlayerStat :=
  { matchId := matchId
    oderId := sid
    odertId := sid
    oderne := jsOrStr p.name "Unknown"
    team := team
    teamName := if team = 1 then md.team1Name else md.team2Name
    isWinner := some (decide (md.winner = team))
    kills := resolveStat p.kills (p.stats.bind RawStats.kills)
    deaths := resolveStat p.deaths (p.stats.bind RawStats.deaths)
    assists := resolveStat p.assists (p.stats.bind RawStats.assists)
    adr := resolveStat p.adr (p.stats.bind RawStats.adr)
    kast := resolveStat p.kast (p.stats.bind RawStats.kast)
    rating := resolveStat p.rating (p.stats.bind RawStats.rating)
    headshots := resolveStat p.headshot_kills (p.stats.bind RawStats.headshot_kills)
    headshotPercent := calculateHSPercent p
    mvps := resolveStat p.mvps (p.stats.bind RawStats.mvps)
    utilityDamage := resolveStat p.utility_damage (p.stats.bind RawStats.utility_damage)
    enemiesFlashed := resolveStat p.enemies_flashed (p.stats.bind RawStats.enemies_flashed)
    flashAssists := resolveStat p.flash_assists (p.stats.bind RawStats.flash_assists)
    plants := resolveStat p.bomb_plants (p.stats.bind RawStats.bomb_plants)
    defuses := resolveStat p.bomb_defuses (p.stats.bind RawStats.bomb_defuses)
    firstKills := resolveStat p.first_kills (p.stats.bind RawStats.first_kills)
    firstDeaths := resolveStat p.first_deaths (p.stats.bind RawStats.first_deaths)
    clutchesWon := resolveStat p.clutches_won (p.stats.bind RawStats.clutches_won)
    damage := resolveStat p.damage (p.stats.bind RawStats.damage)
    map := md.map
    date := now }

/-- Per-player career aggregate embedded on the profile document.
Fields produced by `toFixed(1)` are stored in tenths, by `toFixed(2)` in
hundredths (exact-rational half-up rounding); `kdRatio` when
`totalDeaths = 0` is the plain number `totalKills` in the source, encoded
here as `totalKills * 100` in the same hundredths scale. -/
structure Aggregated where
  totalMatches : Nat
  totalKills : Nat
  totalDeaths : Nat
  totalAssists : Nat
  kdRatio : Nat
  avgAdr : Nat
  avgRating : Nat
  avgHsPercent : Nat
  avgKast : Nat
  wins : Nat
  losses : Nat
  draws : Nat
  winRate : Nat
  totalMvps : Nat
  totalPlants : Nat
  totalDefuses : Nat
  totalClutches : Nat
  totalFirstKills : Nat
  totalFirstDeaths : Nat
  totalUtilityDamage : Nat
  totalEnemiesFlashed : Nat
  totalFlashAssists : Nat
  lastUpdated : Nat
deriving DecidableEq

/-- Profile document in the `users` collection; only the field the
aggregation engine touches is tracked. -/
structure UserDoc where
  aggregatedStats : Option Aggregated := none
deriving DecidableEq

/-- The document store: three collections as association lists keyed by
document id. -/
structure Store where
  matchesColl : List (String × MatchData) := []
  matchStats : List (String × PlayerStat) := []
  users : List (String × UserDoc) := []
deriving DecidableEq

/-- Firestore `set`: replace the document at `k` (create when absent). -/
def setDoc (coll : List (String × α)) (k : String) (v : α) : List (String × α) :=
  (coll.filter fun kv => !(decide (kv.1 = k))) ++ [(k, v)]

/-- Does a document with id `k` exist (`doc.exists`)? -/
def hasKey (coll : List (String × α)) (k : String) : Bool :=
  coll.any fun kv => decide (kv.1 = k)

/-- Fetch the document at id `k`. -/
def getDoc (coll : List (String × α)) (k : String) : Option α :=
  (coll.find? fun kv => decide (kv.1 = k)).map Prod.snd

/-- How many documents in the collection carry id `k`. -/
def countKey (coll : List (String × α)) (k : String) : Nat :=
  (coll.filter fun kv => decide (kv.1 = k)).length

/-- Which external document-store calls succeed on this run.  The source
performs no retries; a `false` flag makes the corresponding call throw. -/
structure DbEnv where
  matchSetOk : Bool
  statSetOk : Bool
  userGetOk : Bool
  queryOk : Bool
  userUpdateOk : Bool
deriving DecidableEq

/-- The run on which every external call succeeds. -/
def okEnv : DbEnv := ⟨true, true, true, true, true⟩

/-- A run on which match/stat persistence and the profile-existence read
succeed, while the aggregate recompute's query and profile update may fail. -/
def aggEnv (q u : Bool) : DbEnv := ⟨true, true, true, q, u⟩

/-- A thrown firestore error: message plus the store as of the throw. -/
abbrev DbErr := String × Store

/-- `db.collection('matches').doc(k).set(v)`. -/
def dbSetMatch (env : DbEnv) (s : Store) (k : String) (v : MatchData) :
    Except DbErr Store :=
  if env.matchSetOk then .ok { s with matchesColl := setDoc s.matchesColl k v }
  else .error ("matches.set failed", s)

/-- `db.collection('matchStats').doc(k).set(v)`. -/
def dbSetStat (env : DbEnv) (s : Store) (k : String) (v : PlayerStat) :
    Except DbErr Store :=
  if env.statSetOk then .ok { s with matchStats := setDoc s.matchStats k v }
  else .error ("matchStats.set failed", s)

/-- `db.collection('users').doc(k).get()` reduced to the `.exists` bit the
source reads. -/
def dbUserExists (env : DbEnv) (s : Store) (k : String) : Except DbErr Bool :=
  if env.userGetOk then .ok (hasKey s.users k)
  else .error ("users.get failed", s)

/-- The stat documents of identity `sid`:
`db.collection('matchStats').where('oderId','==',sid)`. -/
def recordsOf (ms : List (String × PlayerStat)) (sid : String) : List PlayerStat :=
  (ms.filter fun kv => decide (kv.2.oderId = sid)).map Prod.snd

/-- Run the `matchStats` query for identity `sid`. -/
def dbQueryStats (env : DbEnv) (s : Store) (sid : String) :
    Except DbErr (List PlayerStat) :=
  if env.queryOk then .ok (recordsOf s.matchStats sid)
  else .error ("matchStats query failed", s)

/-- The `users` collection after the profile of `sid` receives `agg` as its
`aggregatedStats` field (all other profile content kept). -/
def usersWithAgg (users : List (String × UserDoc)) (sid : String) (agg : Aggregated) :
    List (String × UserDoc) :=
  users.map fun kv =>
    if kv.1 = sid then (kv.1, { kv.2 with aggregatedStats := some agg }) else kv

/-- `db.collection('users').doc(sid).update({aggregatedStats})`: merges the
one field into an existing document, throws NOT_FOUND when the document is
absent (Firestore `update` never creates). -/
def dbUpdateUserAgg (env : DbEnv) (s : Store) (sid : String) (agg : Aggregated) :
    Except DbErr Store :=
  if env.userUpdateOk then
    if hasKey s.users sid then
      .ok { s with users := usersWithAgg s.users sid agg }
    else .error ("users.update NOT_FOUND", s)
  else .error ("users.update failed", s)

/-- The accumulator of `updatePlayerAggregatedStats`' forEach loop: one
field per `let` variable of the source. -/
structure AggAcc where
  totalKills : Nat := 0
  totalDeaths : Nat := 0
  totalAssists : Nat := 0
  totalAdr : Nat := 0
  totalRating : Nat := 0
  totalHsPercent : Nat := 0
  wins : Nat := 0
  losses : Nat := 0
  draws : Nat := 0
  totalMvps : Nat := 0
  totalPlants : Nat := 0
  totalDefuses : Nat := 0
  totalClutches : Nat := 0
  totalFirstKills : Nat := 0
  totalFirstDeaths : Nat := 0
  totalUtilityDamage : Nat := 0
  totalEnemiesFlashed : Nat := 0
  totalFlashAssists : Nat := 0
  totalKast : Nat := 0
  matchCount : Nat := 0
deriving DecidableEq

/-- One iteration of the forEach loop over a stat document (the source's
`|| 0` guards are the identity on the `Nat`-valued stored fields). -/
def stepAcc (acc : AggAcc) (s : PlayerStat) : AggAcc :=
  { totalKills := acc.totalKills + s.kills
    totalDeaths := acc.totalDeaths + s.deaths
    totalAssists := acc.totalAssists + s.assists
    totalAdr := acc.totalAdr + s.adr
    totalRating := acc.totalRating + s.rating
    totalHsPercent := acc.totalHsPercent + s.headshotPercent
    wins := if s.isWinner = some true then acc.wins + 1 else acc.wins
    losses := if s.isWinner = some false then acc.losses + 1 else acc.losses
    draws := match s.isWinner with
      | some _ => acc.draws
      | none => acc.draws + 1
    totalMvps := acc.totalMvps + s.mvps
    totalPlants := acc.totalPlants + s.plants
    totalDefuses := acc.totalDefuses + s.defuses
    totalClutches := acc.totalClutches + s.clutchesWon
    totalFirstKills := acc.totalFirstKills + s.firstKills
    totalFirstDeaths := acc.totalFirstDeaths + s.firstDeaths
    totalUtilityDamage := acc.totalUtilityDamage + s.utilityDamage
    totalEnemiesFlashed := acc.totalEnemiesFlashed + s.enemiesFlashed
    totalFlashAssists := acc.totalFlashAssists + s.flashAssists
    totalKast := acc.totalKast + s.kast
    matchCount := acc.matchCount + 1 }

/-- Fold the full set of a player's stat documents into the `aggregated`
object of the source (derived ratios per the toFixed encodings above). -/
def computeAggregate (now : Nat) (docs : List PlayerStat) : Aggregated :=
  let a := docs.foldl stepAcc {}
  { totalMatches := a.matchCount
    totalKills := a.totalKills
    totalDeaths := a.totalDeaths
    totalAssists := a.totalAssists
    kdRatio := if a.totalDeaths > 0 then roundHalfUpRat (a.totalKills * 100) a.totalDeaths
      else a.totalKills * 100
    avgAdr := if a.matchCount > 0 then roundHalfUpRat (a.totalAdr * 10) a.matchCount else 0
    avgRating := if a.matchCount > 0 then roundHalfUpRat (a.totalRating * 100) a.matchCount else 0
    avgHsPercent := if a.matchCount > 0 then roundHalfUpRat (a.totalHsPercent * 10) a.matchCount else 0
    avgKast := if a.matchCount > 0 then roundHalfUpRat (a.totalKast * 10) a.matchCount else 0
    wins := a.wins
    losses := a.losses
    draws := a.draws
    winRate := if a.matchCount > 0 then roundHalfUpRat (a.wins * 1000) a.matchCount else 0
    totalMvps := a.totalMvps
    totalPlants := a.totalPlants
    totalDefuses := a.totalDefuses
    totalClutches := a.totalClutches
    totalFirstKills := a.totalFirstKills
    totalFirstDeaths := a.totalFirstDeaths
    totalUtilityDamage := a.totalUtilityDamage
    totalEnemiesFlashed := a.totalEnemiesFlashed
    totalFlashAssists := a.totalFlashAssists
    lastUpdated := now }

/-- Body of the try block of `updatePlayerAggregatedStats`: query all stat
records of `sid`, no-op on an empty result, else overwrite the profile's
`aggregatedStats` field. -/
def updateAggInner (env : DbEnv) (now : Nat) (s : Store) (sid : String) :
    Except DbErr Store :=
  match dbQueryStats env s sid with
  | .error e => .error e
  | .ok docs =>
    if docs.isEmpty then .ok s
    else dbUpdateUserAgg env s sid (computeAggregate now docs)

/-- `updatePlayerAggregatedStats(steamId)`: the whole body is wrapped in
try/catch — an error is logged and swallowed, leaving the store as of the
throw. -/
def updatePlayerAggregatedStats (env : DbEnv) (now : Nat) (s : Store) (sid : String) :
    Store :=
  match updateAggInner env now s sid with
  | .ok s1 => s1
  | .error e => e.2

/-- `processPlayerStats(matchId, player, matchData)` in `Except`: skip a
player with no resolvable identity; persist the stat record; then, when a
profile exists for the identity, run the (never-throwing) aggregate
recompute. -/
def processPlayerStats (env : DbEnv) (now : Nat) (matchId : String)
    (p : RawPlayer) (team : Nat) (md : MatchData) (s : Store) :
    Except DbErr Store :=
  match steamIdOf p with
  | none => .ok s
  | some sid =>
    match dbSetStat env s (matchId ++ "_" ++ sid) (mkStat now matchId p team md sid) with
    | .error e => .error e
    | .ok s1 =>
      match dbUserExists env s1 sid with
      | .error e => .error e
      | .ok b =>
        .ok (if b then updatePlayerAggregatedStats env now s1 sid else s1)

/-- The store produced by `processPlayerStats` when its own two external
calls (stat `set`, profile `get`) succeed. -/
def processPlayerStatsRun (env : DbEnv) (now : Nat) (matchId : String)
    (p : RawPlayer) (team : Nat) (md : MatchData) (s : Store) : Store :=
  match steamIdOf p with
  | none => s
  | some sid =>
    let s1 : Store :=
      { s with matchStats :=
          setDoc s.matchStats (matchId ++ "_" ++ sid) (mkStat now matchId p team md sid) }
    if hasKey s1.users sid then updatePlayerAggregatedStats env now s1 sid else s1

/-- The sequential for-loop of `processMatchEnd` over the flattened player
list. -/
def processPlayers (env : DbEnv) (now : Nat) (matchId : String) (md : MatchData) :
    List (RawPlayer × Nat) → Store → Except DbErr Store
  | [], s => .ok s
  | pt :: ps, s =>
    match processPlayerStats env now matchId pt.1 pt.2 md s with
    | .error e => .error e
    | .ok s1 => processPlayers env now matchId md ps s1

/-- The success-path store of the player loop. -/
def processPlayersRun (env : DbEnv) (now : Nat) (matchId : String) (md : MatchData)
    (ps : List (RawPlayer × Nat)) (s : Store) : Store :=
  ps.foldl (fun st pt => processPlayerStatsRun env now matchId pt.1 pt.2 md st) s

/-- `processMatchEnd(data)`: normalize, persist the match record, then feed
every player sequentially to `processPlayerStats`. -/
def processMatchEnd (env : DbEnv) (now : Nat) (data : Payload) (s : Store) :
    Except DbErr Store :=
  match dbSetMatch env s (resolveMatchId now data) (mkMatchData now data) with
  | .error e => .error e
  | .ok s1 =>
    processPlayers env now (resolveMatchId now data) (mkMatchData now data)
      (allPlayers data) s1

/-- The store `processMatchEnd` produces when every external call it makes
directly (match `set`, stat `set`s, profile `get`s) succeeds. -/
def processMatchEndRun (env : DbEnv) (now : Nat) (data : Payload) (s : Store) : Store :=
  processPlayersRun env now (resolveMatchId now data) (mkMatchData now data)
    (allPlayers data)
    { s with matchesColl := setDoc s.matchesColl (resolveMatchId now data) (mkMatchData now data) }

/-- `processMapResult(data)` simply delegates to `processMatchEnd`. -/
def processMapResult (env : DbEnv) (now : Nat) (data : Payload) (s : Store) :
    Except DbErr Store :=
  processMatchEnd env now data s

/-- HTTP answer of the webhook endpoint: status code plus whether the body
was `{success: true}` (as opposed to the 500 `{error: ...}` body). -/
structure WebhookResponse where
  status : Nat
  success : Bool
deriving DecidableEq

/-- Turn the processing result into the endpoint's response: `.ok` →
`res.json({success:true})`, a thrown error → catch, log, status 500. -/
def webhookRespond : Except DbErr Store → Store × WebhookResponse
  | .ok s => (s, ⟨200, true⟩)
  | .error e => (e.2, ⟨500, false⟩)

/-- Is the event one of the terminal match events the switch dispatches to
`processMatchEnd`/`processMapResult`? -/
def isTerminal : Option String → Bool
  | some "match_end" => true
  | some "series_end" => true
  | some "map_result" => true
  | _ => false

/-- `POST /api/matchzy/webhook`: the switch on `data.event`, with
`round_end` and unknown events (including a missing `event` field) logged
and answered `{success:true}` without processing. -/
def handleWebhook (env : DbEnv) (now : Nat) (data : Payload) (s : Store) :
    Store × WebhookResponse :=
  match data.event with
  | some "match_end" => webhookRespond (processMatchEnd env now data s)
  | some "series_end" => webhookRespond (processMatchEnd env now data s)
  | some "round_end" => (s, ⟨200, true⟩)
  | some "map_result" => webhookRespond (processMapResult env now data s)
  | _ => (s, ⟨200, true⟩)

/-- The stat-record write a single player entry contributes to the
`matchStats` collection (identity-less players write nothing). -/
def statWrite (now : Nat) (matchId : String) (md : MatchData)
    (pt : RawPlayer × Nat) (ms : List (String × PlayerStat)) :
    List (String × PlayerStat) :=
  match steamIdOf pt.1 with
  | none => ms
  | some sid => setDoc ms (matchId ++ "_" ++ sid) (mkStat now matchId pt.1 pt.2 md sid)

/-- The `matchStats` document id a player entry resolves to, when any. -/
def statKeyOf (matchId : String) (pt : RawPlayer × Nat) : Option String :=
  (steamIdOf pt.1).map (fun sid => matchId ++ "_" ++ sid)

/-- All player identities a payload resolves (in processing order). -/
def steamIdsOf (data : Payload) : List String :=
  (allPlayers data).filterMap (fun pt => steamIdOf pt.1)

/- ------------------------------------------------------------------ -/
/- Helper lemmas about the document-store model                        -/
/- ------------------------------------------------------------------ -/

theorem countKey_setDoc_self (l : List (String × α)) (k : String) (v : α) :
    countKey (setDoc l k v) k = 1 := by
  simp [countKey, setDoc, List.filter_append, List.filter_filter]

theorem countKey_cons (kv : String × α) (t : List (String × α)) (k : String) :
    countKey (kv :: t) k = (if kv.1 = k then 1 else 0) + countKey t k := by
  by_cases hk : kv.1 = k <;> simp [countKey, List.filter_cons, hk]
  omega

theorem countKey_append (l1 l2 : List (String × α)) (k : String) :
    countKey (l1 ++ l2) k = countKey l1 k + countKey l2 k := by
  simp [countKey, List.filter_append]

theorem countKey_filterOut (l : List (String × α)) (k' k : String) (h : k' ≠ k) :
    countKey (l.filter fun kv => !decide (kv.1 = k')) k = countKey l k := by
  induction l with
  | nil => rfl
  | cons kv t ih =>
    by_cases hk' : kv.1 = k'
    · have hk : kv.1 ≠ k := fun hh => h (hk'.symm.trans hh)
      have hstep : (kv :: t).filter (fun kv => !decide (kv.1 = k'))
          = t.filter (fun kv => !decide (kv.1 = k')) := by
        simp [List.filter_cons, hk']
      rw [hstep, ih, countKey_cons]
      simp [hk]
    · have hstep : (kv :: t).filter (fun kv => !decide (kv.1 = k'))
          = kv :: t.filter (fun kv => !decide (kv.1 = k')) := by
        simp [List.filter_cons, hk']
      rw [hstep, countKey_cons, ih, countKey_cons]

theorem countKey_setDoc_ne (l : List (String × α)) (v : α) (h : k' ≠ k) :
    countKey (setDoc l k' v) k = countKey l k := by
  unfold setDoc
  rw [countKey_append, countKey_filterOut l k' k h, countKey_cons]
  simp [h, countKey]

theorem getDoc_setDoc_self (l : List (String × α)) (k : String) (v : α) :
    getDoc (setDoc l k v) k = some v := by
  unfold getDoc setDoc
  rw [List.find?_append]
  have hnone : (l.filter fun kv => !decide (kv.1 = k)).find?
      (fun kv => decide (kv.1 = k)) = none := by
    apply List.find?_eq_none.mpr
    intro kv hkv
    have := List.of_mem_filter hkv
    simpa using this
  simp [hnone]

theorem getDoc_map_agg (l : List (String × UserDoc)) (sid : String) (agg : Aggregated) :
    getDoc (usersWithAgg l sid agg) sid
      = (getDoc l sid).map fun u => { u with aggregatedStats := some agg } := by
  induction l with
  | nil => simp [getDoc, usersWithAgg]
  | cons kv t ih =>
    by_cases h : kv.1 = sid
    · simp [getDoc, usersWithAgg, List.find?_cons, h]
    · simp [getDoc, usersWithAgg, List.find?_cons, h] at ih ⊢
      exact ih

/- ------------------------------------------------------------------ -/
/- Helper lemmas about the aggregation engine                          -/
/- ------------------------------------------------------------------ -/

theorem updateAgg_matchStats (env : DbEnv) (now : Nat) (s : Store) (sid : String) :
    (updatePlayerAggregatedStats env now s sid).matchStats = s.matchStats := by
  cases hq : env.queryOk <;> cases hu : env.userUpdateOk <;>
    cases hk : hasKey s.users sid <;>
    cases he : (recordsOf s.matchStats sid).isEmpty <;>
    simp [updatePlayerAggregatedStats, updateAggInner, dbQueryStats, dbUpdateUserAgg,
      hq, hu, hk, he]

theorem updateAgg_matchesColl (env : DbEnv) (now : Nat) (s : Store) (sid : String) :
    (updatePlayerAggregatedStats env now s sid).matchesColl = s.matchesColl := by
  cases hq : env.queryOk <;> cases hu : env.userUpdateOk <;>
    cases hk : hasKey s.users sid <;>
    cases he : (recordsOf s.matchStats sid).isEmpty <;>
    simp [updatePlayerAggregatedStats, updateAggInner, dbQueryStats, dbUpdateUserAgg,
      hq, hu, hk, he]

theorem updateAgg_users_absent (env : DbEnv) (now : Nat) (s : Store) (sid : String)
    (habs : hasKey s.users sid = false) :
    updatePlayerAggregatedStats env now s sid = s := by
  cases hq : env.queryOk <;> cases hu : env.userUpdateOk <;>
    cases he : (recordsOf s.matchStats sid).isEmpty <;>
    simp [updatePlayerAggregatedStats, updateAggInner, dbQueryStats, dbUpdateUserAgg,
      hq, hu, he, habs]

theorem updateAgg_ok (env : DbEnv) (now : Nat) (s : Store) (sid : String)
    (hq : env.queryOk = true) (hu : env.userUpdateOk = true)
    (hex : hasKey s.users sid = true)
    (hne : (recordsOf s.matchStats sid).isEmpty = false) :
    updatePlayerAggregatedStats env now s sid
      = { s with users :=
          usersWithAgg s.users sid (computeAggregate now (recordsOf s.matchStats sid)) } := by
  simp [updatePlayerAggregatedStats, updateAggInner, dbQueryStats, dbUpdateUserAgg,
    hq, hu, hex, hne]

/- ------------------------------------------------------------------ -/
/- Helper lemmas about the ingestion pipeline                          -/
/- ------------------------------------------------------------------ -/

theorem processPlayerStats_ok (env : DbEnv) (now : Nat) (matchId : String)
    (p : RawPlayer) (team : Nat) (md : MatchData) (s : Store)
    (h1 : env.statSetOk = true) (h2 : env.userGetOk = true) :
    processPlayerStats env now matchId p team md s
      = .ok (processPlayerStatsRun env now matchId p team md s) := by
  cases hs : steamIdOf p <;>
    simp [processPlayerStats, processPlayerStatsRun, dbSetStat, dbUserExists, h1, h2, hs]

theorem processPlayers_ok (env : DbEnv) (now : Nat) (matchId : String)
    (md : MatchData) (ps : List (RawPlayer × Nat)) (s : Store)
    (h1 : env.statSetOk = true) (h2 : env.userGetOk = true) :
    processPlayers env now matchId md ps s
      = .ok (processPlayersRun env now matchId md ps s) := by
  induction ps generalizing s with
  | nil => simp [processPlayers, processPlayersRun]
  | cons pt ps ih =>
    rw [processPlayers, processPlayerStats_ok env now matchId pt.1 pt.2 md s h1 h2]
    simp [processPlayersRun, List.foldl_cons]
    exact ih _

theorem processMatchEnd_ok (env : DbEnv) (now : Nat) (data : Payload) (s : Store)
    (h0 : env.matchSetOk = true) (h1 : env.statSetOk = true) (h2 : env.userGetOk = true) :
    processMatchEnd env now data s = .ok (processMatchEndRun env now data s) := by
  simp [processMatchEnd, processMatchEndRun, dbSetMatch, h0,
    processPlayers_ok env now (resolveMatchId now data) (mkMatchData now data)
      (allPlayers data) _ h1 h2]

theorem handleWebhook_terminal (env : DbEnv) (now : Nat) (data : Payload) (s : Store)
    (h0 : env.matchSetOk = true) (h1 : env.statSetOk = true) (h2 : env.userGetOk = true)
    (ht : isTerminal data.event = true) :
    handleWebhook env now data s = (processMatchEndRun env now data s, ⟨200, true⟩) := by
  unfold isTerminal at ht
  split at ht
  · rename_i heq
    unfold handleWebhook
    rw [heq]
    simp [webhookRespond, processMatchEnd_ok env now data s h0 h1 h2]
  · rename_i heq
    unfold handleWebhook
    rw [heq]
    simp [webhookRespond, processMatchEnd_ok env now data s h0 h1 h2]
  · rename_i heq
    unfold handleWebhook
    rw [heq]
    simp [processMapResult, webhookRespond, processMatchEnd_ok env now data s h0 h1 h2]
  · exact absurd ht (by simp)

theorem handleWebhook_response (env : DbEnv) (now : Nat) (data : Payload) (s : Store)
    (h0 : env.matchSetOk = true) (h1 : env.statSetOk = true) (h2 : env.userGetOk = true) :
    (handleWebhook env now data s).2 = ⟨200, true⟩ := by
  unfold handleWebhook
  split <;>
    simp [webhookRespond, processMapResult, processMatchEnd_ok env now data s h0 h1 h2]

theorem ppsRun_matchesColl (env : DbEnv) (now : Nat) (matchId : String)
    (p : RawPlayer) (team : Nat) (md : MatchData) (s : Store) :
    (processPlayerStatsRun env now matchId p team md s).matchesColl = s.matchesColl := by
  cases hs : steamIdOf p <;>
    simp [processPlayerStatsRun, hs, updateAgg_matchesColl]
  split <;> simp [updateAgg_matchesColl]

theorem ppsRun_matchStats (env : DbEnv) (now : Nat) (matchId : String)
    (p : RawPlayer) (team : Nat) (md : MatchData) (s : Store) :
    (processPlayerStatsRun env now matchId p team md s).matchStats
      = statWrite now matchId md (p, team) s.matchStats := by
  cases hs : steamIdOf p <;>
    simp [processPlayerStatsRun, statWrite, hs, updateAgg_matchStats]
  split <;> simp [updateAgg_matchStats]

theorem playersRun_matchesColl (env : DbEnv) (now : Nat) (matchId : String)
    (md : MatchData) (ps : List (RawPlayer × Nat)) (s : Store) :
    (processPlayersRun env now matchId md ps s).matchesColl = s.matchesColl := by
  induction ps generalizing s with
  | nil => simp [processPlayersRun]
  | cons pt ps ih =>
    simp only [processPlayersRun, List.foldl_cons] at ih ⊢
    rw [ih, ppsRun_matchesColl]

theorem playersRun_matchStats (env : DbEnv) (now : Nat) (matchId : String)
    (md : MatchData) (ps : List (RawPlayer × Nat)) (s : Store) :
    (processPlayersRun env now matchId md ps s).matchStats
      = ps.foldl (fun ms pt => statWrite now matchId md pt ms) s.matchStats := by
  induction ps generalizing s with
  | nil => simp [processPlayersRun]
  | cons pt ps ih =>
    simp only [processPlayersRun, List.foldl_cons] at ih ⊢
    rw [ih]
    congr 1
    exact ppsRun_matchStats env now matchId pt.1 pt.2 md s

theorem matchEndRun_matchesColl (env : DbEnv) (now : Nat) (data : Payload) (s : Store) :
    (processMatchEndRun env now data s).matchesColl
      = setDoc s.matchesColl (resolveMatchId now data) (mkMatchData now data) := by
  unfold processMatchEndRun
  rw [playersRun_matchesColl]

theorem matchEndRun_matchStats (env : DbEnv) (now : Nat) (data : Payload) (s : Store) :
    (processMatchEndRun env now data s).matchStats
      = (allPlayers data).foldl
          (fun ms pt => statWrite now (resolveMatchId now data) (mkMatchData now data) pt ms)
          s.matchStats := by
  unfold processMatchEndRun
  rw [playersRun_matchStats]

theorem countKey_statWrite (now : Nat) (matchId : String) (md : MatchData)
    (pt : RawPlayer × Nat) (ms : List (String × PlayerStat)) (k : String) :
    countKey (statWrite now matchId md pt ms) k
      = if statKeyOf matchId pt = some k then 1 else countKey ms k := by
  cases hs : steamIdOf pt.1 with
  | none => simp [statWrite, statKeyOf, hs]
  | some sid =>
    by_cases hk : matchId ++ "_" ++ sid = k
    · simp [statWrite, statKeyOf, hs, hk, countKey_setDoc_self]
    · simp [statWrite, statKeyOf, hs, hk, countKey_setDoc_ne _ _ hk]

theorem countKey_foldl_statWrite (now : Nat) (matchId : String) (md : MatchData)
    (k : String) (ps : List (RawPlayer × Nat)) (ms : List (String × PlayerStat)) :
    countKey (ps.foldl (fun ms pt => statWrite now matchId md pt ms) ms) k
      = if ps.any (fun pt => decide (statKeyOf matchId pt = some k)) then 1
        else countKey ms k := by
  induction ps generalizing ms with
  | nil => simp
  | cons pt ps ih =>
    rw [List.foldl_cons, ih]
    by_cases h : statKeyOf matchId pt = some k <;>
      by_cases h2 : ps.any (fun pt => decide (statKeyOf matchId pt = some k)) = true <;>
      simp [h, h2, List.any_cons, countKey_statWrite]

/- ------------------------------------------------------------------ -/
/- Helper lemmas about the aggregation fold                            -/
/- ------------------------------------------------------------------ -/

theorem foldl_stepAcc_matchCount (docs : List PlayerStat) (acc : AggAcc) :
    (docs.foldl stepAcc acc).matchCount = acc.matchCount + docs.length := by
  induction docs generalizing acc with
  | nil => simp
  | cons d t ih =>
    rw [List.foldl_cons, ih]
    simp [stepAcc]
    omega

theorem foldl_stepAcc_wins (docs : List PlayerStat) (acc : AggAcc) :
    (docs.foldl stepAcc acc).wins
      = acc.wins + (docs.filter fun d => decide (d.isWinner = some true)).length := by
  induction docs generalizing acc with
  | nil => simp
  | cons d t ih =>
    rw [List.foldl_cons, ih]
    by_cases h : d.isWinner = some true <;> simp [stepAcc, h, List.filter_cons]
    omega

theorem foldl_stepAcc_losses (docs : List PlayerStat) (acc : AggAcc) :
    (docs.foldl stepAcc acc).losses
      = acc.losses + (docs.filter fun d => decide (d.isWinner = some false)).length := by
  induction docs generalizing acc with
  | nil => simp
  | cons d t ih =>
    rw [List.foldl_cons, ih]
    by_cases h : d.isWinner = some false <;> simp [stepAcc, h, List.filter_cons]
    omega

theorem foldl_stepAcc_draws (docs : List PlayerStat) (acc : AggAcc) :
    (docs.foldl stepAcc acc).draws
      = acc.draws + (docs.filter fun d => decide (d.isWinner = none)).length := by
  induction docs generalizing acc with
  | nil => simp
  | cons d t ih =>
    rw [List.foldl_cons, ih]
    cases h : d.isWinner <;> simp [stepAcc, h, List.filter_cons]
    omega

/- ------------------------------------------------------------------ -/
/- Helper lemmas about the match normalizer                            -/
/- ------------------------------------------------------------------ -/

theorem mkMatchData_isDraw_iff (now : Nat) (data : Payload) :
    (mkMatchData now data).isDraw = true
      ↔ (mkMatchData now data).scoreTeam1 = (mkMatchData now data).scoreTeam2 := by
  simp [mkMatchData]

theorem mkMatchData_winner_formula (now : Nat) (data : Payload) :
    (mkMatchData now data).winner
      = if (mkMatchData now data).scoreTeam1 > (mkMatchData now data).scoreTeam2 then 1
        else if (mkMatchData now data).scoreTeam2 > (mkMatchData now data).scoreTeam1 then 2
        else 0 := rfl

theorem mkMatchData_winner_of_draw (now : Nat) (data : Payload)
    (h : (mkMatchData now data).isDraw = true) :
    (mkMatchData now data).winner = 0 := by
  have heq := (mkMatchData_isDraw_iff now data).mp h
  rw [mkMatchData_winner_formula, heq]
  simp

theorem team_mem_allPlayers (data : Payload) (p : RawPlayer) (team : Nat)
    (h : (p, team) ∈ allPlayers data) : team = 1 ∨ team = 2 := by
  simp [allPlayers, List.mem_append, List.mem_map] at h
  rcases h with ⟨q, _, _, h2⟩ | ⟨q, _, _, h2⟩
  · exact Or.inl h2.symm
  · exact Or.inr h2.symm

theorem resolveMatchId_of_present (now : Nat) (data : Payload) (m : String)
    (hm : data.matchid = some m) (hm0 : m ≠ "") :
    resolveMatchId now data = m := by
  simp [resolveMatchId, jsOrStr, hm, hm0]

theorem steamIdsOf_mem (data : Payload) (sid : String)
    (h : sid ∈ steamIdsOf data) :
    ∃ pt ∈ allPlayers data, steamIdOf pt.1 = some sid := by
  unfold steamIdsOf at h
  exact List.mem_filterMap.mp h

/- ------------------------------------------------------------------ -/
/- Concrete fixtures used by witnesses and counterexamples             -/
/- ------------------------------------------------------------------ -/

/-- Player with 10 kills, 5 of them headshots. -/
def cPlayer1 : RawPlayer := { steamid := some "s1", kills := some 10, headshot_kills := some 5 }

/-- Player with 3 kills, 1 headshot. -/
def cPlayer2 : RawPlayer := { steamid := some "s2", kills := some 3, headshot_kills := some 1 }

def cTeam1 : RawTeam := { name := some "A", score := some 16, players := some [cPlayer1] }

def cTeam2 : RawTeam := { name := some "B", score := some 10, players := some [cPlayer2] }

/-- A terminal webhook payload: match "m1", team A 16 : 10 team B. -/
def cPayload : Payload :=
  { event := some "match_end", matchid := some "m1", team1 := some cTeam1, team2 := some cTeam2 }

/-- Store holding one registered profile for identity "s1". -/
def cUserStore : Store := { users := [("s1", {})] }

/-- The normalized record of `cPayload` at clock 0. -/
def cMd : MatchData := mkMatchData 0 cPayload

def cRec1 : PlayerStat := mkStat 0 "m1" cPlayer1 1 cMd "s1"

def cRec2 : PlayerStat := mkStat 0 "m2" cPlayer1 2 cMd "s1"

def cRec3 : PlayerStat := mkStat 0 "m3" cPlayer1 1 cMd "s1"

/-- Store with three stat records of identity "s1" (isWinner true, false,
true) and that identity's profile. -/
def cAggStore : Store :=
  { matchStats := [("m1_s1", cRec1), ("m2_s1", cRec2), ("m3_s1", cRec3)],
    users := [("s1", {})] }

/-- A terminal payload with no player lists (scores default to 0 : 0). -/
def cPayload5 : Payload := { event := some "match_end", matchid := some "m1" }

/-- Store already holding the record of match "m1" created at clock 1. -/
def cStore5 : Store := { matchesColl := [("m1", mkMatchData 1 cPayload5)] }

/-- Player whose inline kills is 0 while the nested stats carry kills 5. -/
def cPlayerC4 : RawPlayer :=
  { steamid := some "s1", kills := some 0, stats := some { kills := some 5 } }

/-- Player with an identity and no stats at all. -/
def cPlayer6 : RawPlayer := { steamid := some "s9" }

/-- A draw payload: one player, both scores default to 0. -/
def cTeamDraw : RawTeam := { players := some [cPlayer6] }

def cPayloadDraw : Payload :=
  { event := some "match_end", matchid := some "m", team1 := some cTeamDraw }

/-- Environment on which the match-record `set` call throws. -/
def cBadEnv : DbEnv := ⟨false, true, true, true, true⟩

/-- `mkStat` always stores a boolean `isWinner`. -/
theorem mkStat_isWinner (now : Nat) (mid : String) (p : RawPlayer) (team : Nat)
    (md : MatchData) (sid : String) :
    (mkStat now mid p team md sid).isWinner = some (decide (md.winner = team)) := rfl

/- ------------------------------------------------------------------ -/
/- Claim theorems                                                      -/
/- ------------------------------------------------------------------ -/

/-- C2: the headshot-percentage function returns 0 when the resolved kills
are 0 and otherwise rounds `headshotKills/kills*100` to the nearest integer
half-up, as a pure function of the two resolved stat values; concretely 0
kills give 0 for any headshot count, 5/10 gives 50 and 1/3 gives 33. -/
theorem spec_c2 (p : RawPlayer) (hs : Option Nat) :
    calculateHSPercent p
      = (if resolveStat p.kills (p.stats.bind RawStats.kills) = 0 then 0
         else roundHalfUpRat
           (resolveStat p.headshot_kills (p.stats.bind RawStats.headshot_kills) * 100)
           (resolveStat p.kills (p.stats.bind RawStats.kills)))
    ∧ calculateHSPercent { steamid := some "z", headshot_kills := hs } = 0
    ∧ calculateHSPercent cPlayer1 = 50
    ∧ calculateHSPercent cPlayer2 = 33 :=
  ⟨rfl, rfl, by decide, by decide⟩

/-- C7: the normalized match record satisfies `isDraw ↔ equal scores` and
`winner = 1 / 2 / 0` by score comparison; scores 16:10 give winner 1 and
no draw. -/
theorem spec_c7 (now : Nat) (data : Payload) :
    ((mkMatchData now data).isDraw = true
      ↔ (mkMatchData now data).scoreTeam1 = (mkMatchData now data).scoreTeam2)
    ∧ (mkMatchData now data).winner
        = (if (mkMatchData now data).scoreTeam1 > (mkMatchData now data).scoreTeam2 then 1
           else if (mkMatchData now data).scoreTeam2 > (mkMatchData now data).scoreTeam1 then 2
           else 0)
    ∧ ((mkMatchData now data).scoreTeam1 = (mkMatchData now data).scoreTeam2
        → (mkMatchData now data).winner = 0)
    ∧ (mkMatchData 0 cPayload).winner = 1
    ∧ (mkMatchData 0 cPayload).isDraw = false := by
  refine ⟨mkMatchData_isDraw_iff now data, mkMatchData_winner_formula now data, ?_,
    by decide, by decide⟩
  intro h
  exact mkMatchData_winner_of_draw now data ((mkMatchData_isDraw_iff now data).mpr h)

/-- C7 witness: on the concrete drawn payload, the winner is 0 and the
record is a draw. -/
theorem spec_c7_witness :
    (mkMatchData 0 cPayloadDraw).winner = 0 ∧ (mkMatchData 0 cPayloadDraw).isDraw = true :=
  ⟨(spec_c7 0 cPayloadDraw).2.2.1 (by decide),
   (spec_c7 0 cPayloadDraw).1.mpr (by decide)⟩

/-- C4 (amended): stat-field resolution takes the first *truthy* (nonzero)
value — the inline value when nonzero, else the nested value when nonzero,
else 0; consequently the result is 0 exactly when each location is absent
or holds 0.  Every one of the 17 stat fields of the stored record is
resolved this way from its inline and nested keys. -/
theorem spec_c4 (a b : Option Nat) (now : Nat) (matchId : String) (p : RawPlayer)
    (team : Nat) (md : MatchData) (sid : String) :
    (resolveStat a b
      = if a.getD 0 ≠ 0 then a.getD 0 else if b.getD 0 ≠ 0 then b.getD 0 else 0)
    ∧ (resolveStat a b = 0 ↔ a.getD 0 = 0 ∧ b.getD 0 = 0)
    ∧ (mkStat now matchId p team md sid).kills
        = resolveStat p.kills (p.stats.bind RawStats.kills)
    ∧ (mkStat now matchId p team md sid).deaths
        = resolveStat p.deaths (p.stats.bind RawStats.deaths)
    ∧ (mkStat now matchId p team md sid).assists
        = resolveStat p.assists (p.stats.bind RawStats.assists)
    ∧ (mkStat now matchId p team md sid).adr
        = resolveStat p.adr (p.stats.bind RawStats.adr)
    ∧ (mkStat now matchId p team md sid).kast
        = resolveStat p.kast (p.stats.bind RawStats.kast)
    ∧ (mkStat now matchId p team md sid).rating
        = resolveStat p.rating (p.stats.bind RawStats.rating)
    ∧ (mkStat now matchId p team md sid).headshots
        = resolveStat p.headshot_kills (p.stats.bind RawStats.headshot_kills)
    ∧ (mkStat now matchId p team md sid).mvps
        = resolveStat p.mvps (p.stats.bind RawStats.mvps)
    ∧ (mkStat now matchId p team md sid).utilityDamage
        = resolveStat p.utility_damage (p.stats.bind RawStats.utility_damage)
    ∧ (mkStat now matchId p team md sid).enemiesFlashed
        = resolveStat p.enemies_flashed (p.stats.bind RawStats.enemies_flashed)
    ∧ (mkStat now matchId p team md sid).flashAssists
        = resolveStat p.flash_assists (p.stats.bind RawStats.flash_assists)
    ∧ (mkStat now matchId p team md sid).plants
        = resolveStat p.bomb_plants (p.stats.bind RawStats.bomb_plants)
    ∧ (mkStat now matchId p team md sid).defuses
        = resolveStat p.bomb_defuses (p.stats.bind RawStats.bomb_defuses)
    ∧ (mkStat now matchId p team md sid).firstKills
        = resolveStat p.first_kills (p.stats.bind RawStats.first_kills)
    ∧ (mkStat now matchId p team md sid).firstDeaths
        = resolveStat p.first_deaths (p.stats.bind RawStats.first_deaths)
    ∧ (mkStat now matchId p team md sid).clutchesWon
        = resolveStat p.clutches_won (p.stats.bind RawStats.clutches_won)
    ∧ (mkStat now matchId p team md sid).damage
        = resolveStat p.damage (p.stats.bind RawStats.damage) := by
  have hchar : ∀ (a b : Option Nat), resolveStat a b
      = if a.getD 0 ≠ 0 then a.getD 0 else if b.getD 0 ≠ 0 then b.getD 0 else 0 := by
    intro a b
    rcases a with _ | v
    · rcases b with _ | w
      · simp [resolveStat, jsOr]
      · by_cases hw : w = 0 <;> simp [resolveStat, jsOr, hw]
    · rcases b with _ | w
      · by_cases hv : v = 0 <;> simp [resolveStat, jsOr, hv]
      · by_cases hv : v = 0 <;> by_cases hw : w = 0 <;> simp [resolveStat, jsOr, hv, hw]
  have hzero : resolveStat a b = 0 ↔ a.getD 0 = 0 ∧ b.getD 0 = 0 := by
    rw [hchar]
    by_cases hv : a.getD 0 = 0 <;> by_cases hw : b.getD 0 = 0 <;> simp [hv, hw]
  exact ⟨hchar a b, hzero, rfl, rfl, rfl, rfl, rfl, rfl, rfl, rfl, rfl, rfl, rfl, rfl,
    rfl, rfl, rfl, rfl, rfl⟩

/-- C4 counterexample: with inline `kills: 0` and nested `stats.kills: 5`,
the pipeline stores kills 5 — the inline key is present but skipped because
0 is falsy, contradicting inline-key-first resolution (which gives 0). -/
theorem spec_c4_counterexample :
    resolveStat cPlayerC4.kills (cPlayerC4.stats.bind RawStats.kills) = 5
    ∧ resolveStatSpec cPlayerC4.kills (cPlayerC4.stats.bind RawStats.kills) = 0
    ∧ (mkStat 0 "m1" cPlayerC4 1 cMd "s1").kills = 5
    ∧ (mkStat 0 "m1" cPlayerC4 1 cMd "s1").kills
        ≠ resolveStatSpec cPlayerC4.kills (cPlayerC4.stats.bind RawStats.kills) :=
  ⟨by decide, by decide, by decide, by decide⟩

/-- C4 witness: the amended resolution applied at concrete inputs. -/
theorem spec_c4_witness :
    (mkStat 0 "m1" cPlayer1 1 cMd "s1").kills
      = resolveStat cPlayer1.kills (cPlayer1.stats.bind RawStats.kills)
    ∧ (resolveStat (some 0) (some 0) = 0
        ↔ (some 0 : Option Nat).getD 0 = 0 ∧ (some 0 : Option Nat).getD 0 = 0) :=
  ⟨(spec_c4 (some 0) (some 0) 0 "m1" cPlayer1 1 cMd "s1").2.2.1,
   (spec_c4 (some 0) (some 0) 0 "m1" cPlayer1 1 cMd "s1").2.1⟩

/-- C5 (amended): re-delivering a terminal match event fully replaces the
MatchRecord — every field, `createdAt` and `date` included, is re-assigned
from the payload and the current server clock; no read-before-write check
preserves an existing `createdAt` in the match path. -/
theorem spec_c5 (env : DbEnv) (now : Nat) (data : Payload) (s : Store) :
    getDoc (processMatchEndRun env now data s).matchesColl (resolveMatchId now data)
      = some (mkMatchData now data)
    ∧ (mkMatchData now data).createdAt = now
    ∧ (mkMatchData now data).date = now := by
  refine ⟨?_, rfl, rfl⟩
  rw [matchEndRun_matchesColl, getDoc_setDoc_self]

/-- C5 counterexample: a store already holds match "m1" with `createdAt` 1;
re-processing the same payload at clock 2 leaves `createdAt` 2, not 1 — the
existing value is overwritten. -/
theorem spec_c5_counterexample :
    (getDoc (processMatchEndRun okEnv 2 cPayload5 cStore5).matchesColl "m1").map
        MatchData.createdAt = some 2
    ∧ (getDoc cStore5.matchesColl "m1").map MatchData.createdAt = some 1
    ∧ (getDoc (processMatchEndRun okEnv 2 cPayload5 cStore5).matchesColl "m1").map
        MatchData.createdAt ≠ some 1 :=
  ⟨by decide, by decide, by decide⟩

/-- C6: a stat record for an unregistered identity is persisted while the
users collection is untouched — the aggregation engine is not invoked, and
the engine itself maps a store without that profile to itself (it never
creates a profile). -/
theorem spec_c6 (env : DbEnv) (now : Nat) (matchId : String) (p : RawPlayer)
    (team : Nat) (md : MatchData) (s : Store) (sid : String)
    (hsid : steamIdOf p = some sid)
    (habs : hasKey s.users sid = false) :
    processPlayerStatsRun env now matchId p team md s
      = { s with matchStats := (setDoc s.matchStats (matchId ++ "_" ++ sid)
          (mkStat now matchId p team md sid)) }
    ∧ updatePlayerAggregatedStats env now s sid = s := by
  constructor
  · unfold processPlayerStatsRun
    rw [hsid]
    simp [habs]
  · exact updateAgg_users_absent env now s sid habs

/-- C6 witness: the unregistered identity "s9" on the empty store. -/
theorem spec_c6_witness :
    processPlayerStatsRun okEnv 0 "m1" cPlayer6 1 cMd {}
      = { ({} : Store) with matchStats := (setDoc ({} : Store).matchStats ("m1" ++ "_" ++ "s9")
          (mkStat 0 "m1" cPlayer6 1 cMd "s9")) }
    ∧ updatePlayerAggregatedStats okEnv 0 {} "s9" = {} :=
  spec_c6 okEnv 0 "m1" cPlayer6 1 cMd {} "s9" (by decide) (by decide)

/-- C9 (amended): whenever the match write, the stat writes and the
profile-existence reads succeed, the webhook answers `{success:true}` with
status 200 for every body, whatever happens inside the aggregate recompute
(its query or profile update may throw; the error is swallowed).  A store
failure outside the aggregate recompute instead propagates to the handler's
catch and yields status 500 (see the counterexample). -/
theorem spec_c9 (q u : Bool) (now : Nat) (data : Payload) (s : Store) :
    (handleWebhook (aggEnv q u) now data s).2 = ⟨200, true⟩ :=
  handleWebhook_response (aggEnv q u) now data s rfl rfl rfl

/-- C9 counterexample: on a run where the match-record `set` throws, the
endpoint answers status 500 with no `success:true` body, although the body
is a syntactically valid `match_end` event — an ingestion store failure is
re-surfaced as a webhook failure. -/
theorem spec_c9_counterexample :
    (handleWebhook cBadEnv 0 cPayload {}).2 = ⟨500, false⟩
    ∧ (handleWebhook cBadEnv 0 cPayload {}).2 ≠ ⟨200, true⟩
    ∧ cPayload.event = some "match_end" :=
  ⟨by decide, by decide, rfl⟩

/-- C1: for an identity with a registered profile and at least one stat
record, the aggregation engine folds the full set of that identity's
records onto the profile: wins/losses/draws count the records whose
`isWinner` is `true` / `false` / anything else, `totalMatches` is the
record count, and `winRate` is `wins/matchCount*100` rounded half-up to one
decimal (stored in tenths of a percent). -/
theorem spec_c1 (now : Nat) (s : Store) (sid : String)
    (hex : hasKey s.users sid = true)
    (hne : (recordsOf s.matchStats sid).isEmpty = false) :
    getDoc (updatePlayerAggregatedStats okEnv now s sid).users sid
      = (getDoc s.users sid).map (fun u => { u with aggregatedStats := (some
          (computeAggregate now (recordsOf s.matchStats sid))) })
    ∧ (computeAggregate now (recordsOf s.matchStats sid)).wins
        = ((recordsOf s.matchStats sid).filter
            (fun d => decide (d.isWinner = some true))).length
    ∧ (computeAggregate now (recordsOf s.matchStats sid)).losses
        = ((recordsOf s.matchStats sid).filter
            (fun d => decide (d.isWinner = some false))).length
    ∧ (computeAggregate now (recordsOf s.matchStats sid)).draws
        = ((recordsOf s.matchStats sid).filter
            (fun d => decide (d.isWinner = none))).length
    ∧ (computeAggregate now (recordsOf s.matchStats sid)).totalMatches
        = (recordsOf s.matchStats sid).length
    ∧ (computeAggregate now (recordsOf s.matchStats sid)).winRate
        = roundHalfUpRat ((computeAggregate now (recordsOf s.matchStats sid)).wins * 1000)
            (recordsOf s.matchStats sid).length := by
  have hne' : recordsOf s.matchStats sid ≠ [] := by
    intro h
    rw [h] at hne
    simp [List.isEmpty] at hne
  have hlen : 0 < (recordsOf s.matchStats sid).length := by
    cases hrec : recordsOf s.matchStats sid with
    | nil => exact absurd hrec hne'
    | cons a t => simp
  refine ⟨?_, ?_, ?_, ?_, ?_, ?_⟩
  · rw [updateAgg_ok okEnv now s sid rfl rfl hex hne]
    exact getDoc_map_agg s.users sid _
  · show ((recordsOf s.matchStats sid).foldl stepAcc {}).wins = _
    rw [foldl_stepAcc_wins]
    simp
  · show ((recordsOf s.matchStats sid).foldl stepAcc {}).losses = _
    rw [foldl_stepAcc_losses]
    simp
  · show ((recordsOf s.matchStats sid).foldl stepAcc {}).draws = _
    rw [foldl_stepAcc_draws]
    simp
  · show ((recordsOf s.matchStats sid).foldl stepAcc {}).matchCount = _
    rw [foldl_stepAcc_matchCount]
    simp
  · show (if ((recordsOf s.matchStats sid).foldl stepAcc {}).matchCount > 0
        then roundHalfUpRat (((recordsOf s.matchStats sid).foldl stepAcc {}).wins * 1000)
          ((recordsOf s.matchStats sid).foldl stepAcc {}).matchCount
        else 0) = _
    rw [foldl_stepAcc_matchCount, if_pos (by simpa using hlen)]
    have hz : ({} : AggAcc).matchCount + (recordsOf s.matchStats sid).length
        = (recordsOf s.matchStats sid).length := by simp
    rw [hz]
    rfl

/-- C1 witness: three records with isWinner [true, false, true] yield
wins 2, losses 1, draws 0, totalMatches 3 and winRate 66.7% (667 tenths),
written onto the registered profile. -/
theorem spec_c1_witness :
    (computeAggregate 7 (recordsOf cAggStore.matchStats "s1")).wins = 2
    ∧ (computeAggregate 7 (recordsOf cAggStore.matchStats "s1")).losses = 1
    ∧ (computeAggregate 7 (recordsOf cAggStore.matchStats "s1")).draws = 0
    ∧ (computeAggregate 7 (recordsOf cAggStore.matchStats "s1")).totalMatches = 3
    ∧ (computeAggregate 7 (recordsOf cAggStore.matchStats "s1")).winRate = 667
    ∧ getDoc (updatePlayerAggregatedStats okEnv 7 cAggStore "s1").users "s1"
        = (getDoc cAggStore.users "s1").map (fun u => { u with aggregatedStats := (some
            (computeAggregate 7 (recordsOf cAggStore.matchStats "s1"))) }) := by
  have h := spec_c1 7 cAggStore "s1" (by decide) (by decide)
  exact ⟨h.2.1.trans (by decide), h.2.2.1.trans (by decide), h.2.2.2.1.trans (by decide),
    h.2.2.2.2.1.trans (by decide), h.2.2.2.2.2.trans (by decide), h.1⟩

/-- C3: delivering the same terminal payload (with a nonempty `matchid`)
twice is idempotent on the match id: afterwards the matches collection
holds exactly one record under that id, and the matchStats collection
exactly one record under `matchId_identity` for each player identity of
the payload — the second delivery overwrites, never duplicates. -/
theorem spec_c3 (now1 now2 : Nat) (data : Payload) (s : Store) (m sid : String)
    (ht : isTerminal data.event = true)
    (hm : data.matchid = some m) (hm0 : m ≠ "")
    (hsid : sid ∈ steamIdsOf data) :
    countKey (handleWebhook okEnv now2 data
        (handleWebhook okEnv now1 data s).1).1.matchesColl m = 1
    ∧ countKey (handleWebhook okEnv now2 data
        (handleWebhook okEnv now1 data s).1).1.matchStats (m ++ "_" ++ sid) = 1 := by
  have hmid2 := resolveMatchId_of_present now2 data m hm hm0
  have hfst1 : (handleWebhook okEnv now1 data s).1 = processMatchEndRun okEnv now1 data s := by
    rw [handleWebhook_terminal okEnv now1 data s rfl rfl rfl ht]
  rw [hfst1]
  have hfst2 : (handleWebhook okEnv now2 data (processMatchEndRun okEnv now1 data s)).1
      = processMatchEndRun okEnv now2 data (processMatchEndRun okEnv now1 data s) := by
    rw [handleWebhook_terminal okEnv now2 data _ rfl rfl rfl ht]
  rw [hfst2]
  constructor
  · rw [matchEndRun_matchesColl, hmid2, countKey_setDoc_self]
  · rw [matchEndRun_matchStats, hmid2]
    obtain ⟨pt, hmem, hpt⟩ := steamIdsOf_mem data sid hsid
    have hany : (allPlayers data).any
        (fun pt => decide (statKeyOf m pt = some (m ++ "_" ++ sid))) = true := by
      rw [List.any_eq_true]
      exact ⟨pt, hmem, by simp [statKeyOf, hpt]⟩
    rw [countKey_foldl_statWrite]
    simp [hany]

/-- C3 witness: the concrete payload delivered at clocks 5 and 9. -/
theorem spec_c3_witness :
    countKey (handleWebhook okEnv 9 cPayload
        (handleWebhook okEnv 5 cPayload {}).1).1.matchesColl "m1" = 1
    ∧ countKey (handleWebhook okEnv 9 cPayload
        (handleWebhook okEnv 5 cPayload {}).1).1.matchStats ("m1" ++ "_" ++ "s1") = 1 :=
  spec_c3 5 9 cPayload {} "m1" "s1" (by decide) rfl (by decide) (by decide)

/-- C8: on a run where match/stat persistence and the profile reads
succeed, a throwing aggregate recompute (its query or its profile update
may fail arbitrarily) is swallowed: the webhook still answers
`{success:true}` and the matchStats collection is exactly what the fully
successful run produces — no stat record is rolled back. -/
theorem spec_c8 (q u : Bool) (now : Nat) (data : Payload) (s : Store)
    (ht : isTerminal data.event = true) :
    (handleWebhook (aggEnv q u) now data s).2 = ⟨200, true⟩
    ∧ (handleWebhook (aggEnv q u) now data s).1.matchStats
        = (processMatchEndRun okEnv now data s).matchStats := by
  have hterm := handleWebhook_terminal (aggEnv q u) now data s rfl rfl rfl ht
  refine ⟨by rw [hterm], ?_⟩
  rw [hterm]
  show (processMatchEndRun (aggEnv q u) now data s).matchStats = _
  rw [matchEndRun_matchStats, matchEndRun_matchStats]

/-- C8 witness: aggregate query and profile update both throw (flags
false) on a store with a registered profile; the response is still 200
`{success:true}` and the stat records equal the successful run's. -/
theorem spec_c8_witness :
    (handleWebhook (aggEnv false false) 0 cPayload cUserStore).2 = ⟨200, true⟩
    ∧ (handleWebhook (aggEnv false false) 0 cPayload cUserStore).1.matchStats
        = (processMatchEndRun okEnv 0 cPayload cUserStore).matchStats :=
  spec_c8 false false 0 cPayload cUserStore (by decide)

/-- C10: the pipeline always writes a boolean `isWinner`
(`winner == team`); in a drawn match (winner 0, player teams 1 or 2) every
player's record gets `isWinner = false` and is counted as a loss; the
draws counter stays 0 on any set of pipeline-produced records. -/
theorem spec_c10 (now : Nat) (data : Payload) (p : RawPlayer) (team : Nat)
    (sid mid : String) (pt : RawPlayer × Nat) (ps : List (RawPlayer × Nat))
    (hmem : (p, team) ∈ allPlayers data)
    (hdraw : (mkMatchData now data).isDraw = true) :
    (mkStat now mid pt.1 pt.2 (mkMatchData now data) sid).isWinner
      = some (decide ((mkMatchData now data).winner = pt.2))
    ∧ (mkStat now mid p team (mkMatchData now data) sid).isWinner = some false
    ∧ (computeAggregate now
        (ps.map fun q => mkStat now mid q.1 q.2 (mkMatchData now data) sid)).draws = 0 := by
  have hw0 := mkMatchData_winner_of_draw now data hdraw
  have hteam := team_mem_allPlayers data p team hmem
  refine ⟨rfl, ?_, ?_⟩
  · show some (decide ((mkMatchData now data).winner = team)) = some false
    rw [hw0]
    rcases hteam with h1 | h1 <;> subst h1 <;> simp
  · show ((ps.map fun q => mkStat now mid q.1 q.2 (mkMatchData now data) sid).foldl
        stepAcc {}).draws = 0
    rw [foldl_stepAcc_draws]
    have hfe : ((ps.map fun q => mkStat now mid q.1 q.2 (mkMatchData now data) sid).filter
        (fun d => decide (d.isWinner = none))) = [] := by
      induction ps with
      | nil => rfl
      | cons q t ih => simp [List.filter_cons, mkStat_isWinner, ih]
    rw [hfe]
    rfl

/-- C10 witness: the concrete drawn payload's player gets
`isWinner = some false` and contributes no draw to the aggregate fold. -/
theorem spec_c10_witness :
    (mkStat 0 "m" cPlayer6 1 (mkMatchData 0 cPayloadDraw) "s9").isWinner
      = some (decide ((mkMatchData 0 cPayloadDraw).winner = 1))
    ∧ (mkStat 0 "m" cPlayer6 1 (mkMatchData 0 cPayloadDraw) "s9").isWinner = some false
    ∧ (computeAggregate 0
        ([(cPlayer6, 1)].map fun q =>
          mkStat 0 "m" q.1 q.2 (mkMatchData 0 cPayloadDraw) "s9")).draws = 0 :=
  spec_c10 0 cPayloadDraw cPlayer6 1 "s9" "m" (cPlayer6, 1) [(cPlayer6, 1)]
    (by decide) (by decide)
